import Mathlib

/-!
Verification of the growlpeat Growl-notification relay (src/growlpeat.py)
against its design specification.

The development shallowly embeds the packet layer (`GrowlPacket.__init__`,
`GrowlPacket.type`, `GrowlPacket.info`) and the per-datagram relay loop
(`_RequestHandler.handle`) as executable Lean functions over byte lists
(`List Nat`, each element a byte value).  Python byte strings become
`List Nat`; Python exceptions (IndexError from `data[1]`, struct.error from
`struct.unpack`, socket errors from `sendto`) become `Except Unit`.
MD5 (Python `hashlib.md5`) is embedded as the standard MD5 algorithm,
executable, and checked below against the RFC 1321 test vectors.
-/

set_option autoImplicit false
set_option maxRecDepth 100000

namespace Growlpeat

/-- Truncation to a 32-bit word. -/
def w32 (x : Nat) : Nat := x % 4294967296

/-- Left rotation of a 32-bit word by `n` bits. -/
def rotl32 (x n : Nat) : Nat := w32 ((w32 x <<< n) ||| (w32 x >>> (32 - n)))

/-- The 64 MD5 sine-derived round constants (RFC 1321). -/
def md5K : List Nat :=
  [3614090360, 3905402710, 606105819, 3250441966, 4118548399, 1200080426,
   2821735955, 4249261313, 1770035416, 2336552879, 4294925233, 2304563134,
   1804603682, 4254626195, 2792965006, 1236535329, 4129170786, 3225465664,
   643717713, 3921069994, 3593408605, 38016083, 3634488961, 3889429448,
   568446438, 3275163606, 4107603335, 1163531501, 2850285829, 4243563512,
   1735328473, 2368359562, 4294588738, 2272392833, 1839030562, 4259657740,
   2763975236, 1272893353, 4139469664, 3200236656, 681279174, 3936430074,
   3572445317, 76029189, 3654602809, 3873151461, 530742520, 3299628645,
   4096336452, 1126891415, 2878612391, 4237533241, 1700485571, 2399980690,
   4293915773, 2240044497, 1873313359, 4264355552, 2734768916, 1309151649,
   4149444226, 3174756917, 718787259, 3951481745]

/-- The 64 MD5 per-round left-rotation amounts (RFC 1321). -/
def md5S : List Nat :=
  [7, 12, 17, 22, 7, 12, 17, 22, 7, 12, 17, 22, 7, 12, 17, 22,
   5, 9, 14, 20, 5, 9, 14, 20, 5, 9, 14, 20, 5, 9, 14, 20,
   4, 11, 16, 23, 4, 11, 16, 23, 4, 11, 16, 23, 4, 11, 16, 23,
   6, 10, 15, 21, 6, 10, 15, 21, 6, 10, 15, 21, 6, 10, 15, 21]

/-- One MD5 round: `m` selects message words, `st = (a, b, c, d)`, `i` is the
round index.  `4294967295 - x` is the 32-bit bitwise complement of `x < 2^32`. -/
def md5round (m : Nat → Nat) (st : Nat × Nat × Nat × Nat) (i : Nat) :
    Nat × Nat × Nat × Nat :=
  let a := st.1
  let b := st.2.1
  let c := st.2.2.1
  let d := st.2.2.2
  let f :=
    if i < 16 then (b &&& c) ||| ((4294967295 - b) &&& d)
    else if i < 32 then (d &&& b) ||| ((4294967295 - d) &&& c)
    else if i < 48 then b ^^^ c ^^^ d
    else c ^^^ (b ||| (4294967295 - d))
  let g :=
    if i < 16 then i
    else if i < 32 then (5 * i + 1) % 16
    else if i < 48 then (3 * i + 5) % 16
    else (7 * i) % 16
  (d, w32 (b + rotl32 (a + f + md5K.getD i 0 + m g) (md5S.getD i 0)), b, c)

/-- The 64 MD5 rounds over one block. -/
def md5rounds (m : Nat → Nat) (st : Nat × Nat × Nat × Nat) :
    Nat × Nat × Nat × Nat :=
  (List.range 64).foldl (md5round m) st

/-- Little-endian 32-bit word `i` of a 64-byte block. -/
def leWord (block : List Nat) (i : Nat) : Nat :=
  block.getD (4 * i) 0 + 256 * block.getD (4 * i + 1) 0 +
    65536 * block.getD (4 * i + 2) 0 + 16777216 * block.getD (4 * i + 3) 0

/-- Compression of one 64-byte block into the running state. -/
def md5block (block : List Nat) (st : Nat × Nat × Nat × Nat) :
    Nat × Nat × Nat × Nat :=
  let r := md5rounds (leWord block) st
  (w32 (st.1 + r.1), w32 (st.2.1 + r.2.1), w32 (st.2.2.1 + r.2.2.1),
   w32 (st.2.2.2 + r.2.2.2))

/-- Fold the compression over `k` consecutive 64-byte blocks of `msg`. -/
def md5blocks : Nat → List Nat → Nat × Nat × Nat × Nat → Nat × Nat × Nat × Nat
  | 0, _, st => st
  | k + 1, msg, st => md5blocks k (msg.drop 64) (md5block (msg.take 64) st)

/-- `k` bytes of `x`, little-endian. -/
def toLE : Nat → Nat → List Nat
  | _, 0 => []
  | x, k + 1 => (x % 256) :: toLE (x / 256) k

/-- MD5 padding: byte 0x80, zeros to 56 mod 64, then the 64-bit little-endian
bit length. -/
def md5pad (msg : List Nat) : List Nat :=
  msg ++ 128 :: List.replicate ((119 - msg.length % 64) % 64) 0 ++
    toLE ((8 * msg.length) % 18446744073709551616) 8

/-- MD5 of a byte list: the 16-byte binary digest, as computed by Python
`hashlib.md5(msg).digest()`. -/
def md5 (msg : List Nat) : List Nat :=
  let p := md5pad msg
  let st := md5blocks (p.length / 64) p (1732584193, 4023233417, 2562383102, 271733878)
  toLE st.1 4 ++ toLE st.2.1 4 ++ toLE st.2.2.1 4 ++ toLE st.2.2.2 4

theorem toLE_length (x k : Nat) : (toLE x k).length = k := by
  induction k generalizing x with
  | zero => rfl
  | succ k ih => simp [toLE, ih]

/-- Every MD5 digest is exactly 16 bytes. -/
theorem md5_length (msg : List Nat) : (md5 msg).length = 16 := by
  simp [md5, toLE_length]

/-- RFC 1321 test vector: the MD5 digest of the empty message
(d41d8cd98f00b204e9800998ecf8427e). -/
theorem md5_vector_empty :
    md5 [] = [212, 29, 140, 217, 143, 0, 178, 4, 233, 128, 9, 152, 236, 248, 66, 126] := by
  decide

/-- RFC 1321 test vector: the MD5 digest of the ASCII bytes of "abc"
(900150983cd24fb0d6963f7d28e17f72). -/
theorem md5_vector_abc :
    md5 [97, 98, 99] = [144, 1, 80, 152, 60, 210, 79, 176, 214, 150, 63, 125, 40, 225, 127, 114] := by
  decide

/-!
The packet layer.  `GrowlPacket.__init__(data, clientPassword)` validates
`data` against the module-global `GROWLPEAT_PASSWORD` (here the explicit
argument `pw`) and, when authentic and a client password is supplied,
rewrites the trailing checksum.  Python slice semantics on the byte string:
`data[:-16]` is `data.take (data.length - 16)` (empty when the string has at
most 16 bytes, since truncated Nat subtraction and the Python clamp of a
negative index to 0 agree), and `data[-16:]` is `data.drop (data.length - 16)`
(the whole string when it has fewer than 16 bytes).  `data[1]` raises
IndexError when the string is shorter than 2 bytes; that exception is
`Except.error ()`.
-/

/-- A decoded packet: its raw bytes and the validity flag, mirroring the
`data` and `valid` attributes of the Python class. -/
structure GrowlPacket where
  data : List Nat
  valid : Bool
deriving DecidableEq

/-- `GrowlPacket.type`: reads `self.data[1]` (IndexError when shorter than 2
bytes) and classifies: 0 is REGISTER, 1 is NOTIFY, anything else
UNSUPPORTED. -/
def packetType (data : List Nat) : Except Unit String :=
  match data[1]? with
  | none => .error ()
  | some b =>
    .ok (if b = 0 then "REGISTER" else if b = 1 then "NOTIFY" else "UNSUPPORTED")

/-- `GrowlPacket.__init__(data, clientPassword)` with the module-global
relay password `pw`: starts with `valid = False`, and for supported types
compares `md5(data[:-16] ++ pw)` with `data[-16:]`; on a match sets
`valid = True` and, when `clientPassword` is supplied, replaces the trailing
16 bytes with `md5(data[:-16] ++ clientPassword)`. -/
def growlPacket (data pw : List Nat) (clientPassword : Option (List Nat)) :
    Except Unit GrowlPacket :=
  match packetType data with
  | .error e => .error e
  | .ok t =>
    if t ≠ "UNSUPPORTED" then
      let uncheckedData := data.take (data.length - 16)
      if md5 (uncheckedData ++ pw) = data.drop (data.length - 16) then
        match clientPassword with
        | none => .ok ⟨data, true⟩
        | some cp => .ok ⟨uncheckedData ++ md5 (uncheckedData ++ cp), true⟩
      else .ok ⟨data, false⟩
    else .ok ⟨data, false⟩

/-- Python slice `l[i:j]` for int indices: negative indices count from the
end and the bounds are clamped into the string. -/
def pySlice (l : List Nat) (i j : Int) : List Nat :=
  let n : Int := l.length
  let s := (if i < 0 then max 0 (n + i) else min i n).toNat
  let e := (if j < 0 then max 0 (n + j) else min j n).toNat
  (l.take e).drop s

/-- `struct.unpack("!H", s)`: one big-endian 16-bit field; struct.error
unless `s` is exactly 2 bytes. -/
def unpackH (s : List Nat) : Except Unit Nat :=
  match s with
  | [a, b] => .ok (a * 256 + b)
  | _ => .error ()

/-- Result of `GrowlPacket.info()`: four sliced string fields for NOTIFY
packets, a single byte slice otherwise. -/
inductive GrowlInfo where
  | fields (name title description app : List Nat) : GrowlInfo
  | raw (bytes : List Nat) : GrowlInfo
deriving DecidableEq

/-- `GrowlPacket.info()`: for NOTIFY, unpacks four big-endian 16-bit lengths
at offsets 4, 6, 8, 10 and then unpacks `data[12 : len(data)-16]` with the
format `"NsTsDsAs"`, which raises struct.error unless that slice has exactly
`nlen + tlen + dlen + alen` bytes; otherwise unpacks one length at offset 2
and returns the slice `data[6 : 7+length]`.  Any IndexError or struct.error
is `Except.error ()`. -/
def info (data : List Nat) : Except Unit GrowlInfo :=
  match packetType data with
  | .error e => .error e
  | .ok t =>
    if t = "NOTIFY" then
      match unpackH (pySlice data 4 6) with
      | .error e => .error e
      | .ok nlen =>
        match unpackH (pySlice data 6 8) with
        | .error e => .error e
        | .ok tlen =>
          match unpackH (pySlice data 8 10) with
          | .error e => .error e
          | .ok dlen =>
            match unpackH (pySlice data 10 12) with
            | .error e => .error e
            | .ok alen =>
              let s := pySlice data 12 ((data.length : Int) - 16)
              if s.length = nlen + tlen + dlen + alen then
                .ok (.fields (s.take nlen) ((s.drop nlen).take tlen)
                  (((s.drop nlen).drop tlen).take dlen)
                  ((((s.drop nlen).drop tlen).drop dlen).take alen))
              else .error ()
    else
      match unpackH (pySlice data 2 4) with
      | .error e => .error e
      | .ok len => .ok (.raw (pySlice data 6 (7 + (len : Int))))

/-!
The relay loop.  `_RequestHandler.handle` builds `GrowlPacket(raw)` (no
client password), and when it is valid iterates over the configured
`(host, clientPassword)` pairs, building `GrowlPacket(receivedPacket.data,
clientPassword)` and sending its bytes to the host with a fresh UDP socket.
There is no exception handler in the loop: a raising `sendto` (for example
socket.gaierror on an unresolvable hostname) propagates and aborts the
whole handler.  The environment is modelled by `sendFails : Nat → Bool`,
true when the send for the destination at that position raises.  The result
is the list of `(host, bytes)` datagrams actually handed to `sendto`
(accumulated even when a later exception occurs) together with the
outcome string, or the propagated exception.
-/

/-- The fan-out loop body, starting at position `i` of the destination
list. -/
def fanout (data pw : List Nat) (clients : List (String × List Nat))
    (sendFails : Nat → Bool) (i : Nat) :
    List (String × List Nat) × Except Unit Unit :=
  match clients with
  | [] => ([], .ok ())
  | (host, cpw) :: rest =>
    match growlPacket data pw (some cpw) with
    | .error e => ([], .error e)
    | .ok cp =>
      if sendFails i then ([], .error ())
      else
        let r := fanout data pw rest sendFails (i + 1)
        ((host, cp.data) :: r.1, r.2)

/-- `_RequestHandler.handle` on one inbound datagram `raw`: validate under
the relay password, and either discard or fan out to every destination.
Returns the datagrams sent and the outcome (DISCARDED or REPEATED), or the
exception that aborted the handler. -/
def handle (raw pw : List Nat) (clients : List (String × List Nat))
    (sendFails : Nat → Bool) :
    List (String × List Nat) × Except Unit String :=
  match growlPacket raw pw none with
  | .error _ => ([], .error ())
  | .ok p =>
    if p.valid then
      let r := fanout p.data pw clients sendFails 0
      (r.1, r.2.map fun _ => "REPEATED")
    else ([], .ok "DISCARDED")

deriving instance DecidableEq for Except

/-!
Helper lemmas shared by the claim theorems.
-/

/-- Abbreviation for the re-signed bytes: the body of `data` followed by the
MD5 checksum of the body and the secret `cp`. -/
def resign (data cp : List Nat) : List Nat :=
  data.take (data.length - 16) ++ md5 (data.take (data.length - 16) ++ cp)

/-- `GrowlPacket.__init__` on a datagram shorter than 2 bytes: `data[1]`
raises IndexError. -/
theorem growlPacket_short (data pw : List Nat) (cp : Option (List Nat))
    (hb : data[1]? = none) :
    growlPacket data pw cp = .error () := by
  unfold growlPacket packetType
  rw [hb]

/-- `GrowlPacket.__init__` on an unsupported type byte: no checksum is
computed and the bytes are untouched. -/
theorem growlPacket_unsupported (data pw : List Nat) (cp : Option (List Nat)) {b : Nat}
    (hb : data[1]? = some b) (h0 : ¬b = 0) (h1 : ¬b = 1) :
    growlPacket data pw cp = .ok ⟨data, false⟩ := by
  unfold growlPacket packetType
  rw [hb]
  simp [h0, h1]

/-- `GrowlPacket.__init__` on a supported type byte reduces to the checksum
comparison. -/
theorem growlPacket_supported (data pw : List Nat) (cp : Option (List Nat)) {b : Nat}
    (hb : data[1]? = some b) (hsupp : b = 0 ∨ b = 1) :
    growlPacket data pw cp =
      if md5 (data.take (data.length - 16) ++ pw) = data.drop (data.length - 16) then
        match cp with
        | none => .ok ⟨data, true⟩
        | some c => .ok ⟨resign data c, true⟩
      else .ok ⟨data, false⟩ := by
  unfold growlPacket packetType resign
  rw [hb]
  rcases hsupp with h | h <;> subst h <;> simp

/-- A packet that validated under `pw` has a supported type byte and a
matching trailing checksum. -/
theorem valid_elim {data pw : List Nat} {cp : Option (List Nat)} {p : GrowlPacket}
    (hp : growlPacket data pw cp = .ok p) (hv : p.valid = true) :
    (∃ b, data[1]? = some b ∧ (b = 0 ∨ b = 1)) ∧
      md5 (data.take (data.length - 16) ++ pw) = data.drop (data.length - 16) := by
  cases hb : data[1]? with
  | none => rw [growlPacket_short data pw cp hb] at hp; cases hp
  | some b =>
    by_cases h0 : b = 0
    · refine ⟨⟨b, rfl, Or.inl h0⟩, ?_⟩
      by_cases hck : md5 (data.take (data.length - 16) ++ pw) =
          data.drop (data.length - 16)
      · exact hck
      · rw [growlPacket_supported data pw cp hb (Or.inl h0), if_neg hck] at hp
        injection hp with h
        rw [← h] at hv
        simp at hv
    · by_cases h1 : b = 1
      · refine ⟨⟨b, rfl, Or.inr h1⟩, ?_⟩
        by_cases hck : md5 (data.take (data.length - 16) ++ pw) =
            data.drop (data.length - 16)
        · exact hck
        · rw [growlPacket_supported data pw cp hb (Or.inr h1), if_neg hck] at hp
          injection hp with h
          rw [← h] at hv
          simp at hv
      · rw [growlPacket_unsupported data pw cp hb h0 h1] at hp
        injection hp with h
        rw [← h] at hv
        simp at hv

/-- Validation with no client password never rewrites: a valid result is
exactly the original bytes with the flag set. -/
theorem valid_none_eq {data pw : List Nat} {p : GrowlPacket}
    (hp : growlPacket data pw none = .ok p) (hv : p.valid = true) :
    p = ⟨data, true⟩ := by
  obtain ⟨⟨b, hb, hsupp⟩, hck⟩ := valid_elim hp hv
  rw [growlPacket_supported data pw none hb hsupp, if_pos hck] at hp
  injection hp with h
  exact h.symm

/-- A packet that validates under `pw` with no client password also
validates with any client password `t`, producing the re-signed bytes. -/
theorem valid_some_eq {data pw : List Nat} {p : GrowlPacket}
    (hp : growlPacket data pw none = .ok p) (hv : p.valid = true) (t : List Nat) :
    growlPacket data pw (some t) = .ok ⟨resign data t, true⟩ := by
  obtain ⟨⟨b, hb, hsupp⟩, hck⟩ := valid_elim hp hv
  rw [growlPacket_supported data pw (some t) hb hsupp, if_pos hck]

/-!
Claim theorems.
-/

/-- C1: for every authentic packet with body `b` (its bytes minus the
trailing 16) verified under `pw`, re-signing with any target secret `t`
produces a packet whose bytes are exactly `b ++ md5 (b ++ t)`; the original
packet value is not mutated (validation without a target returns exactly the
original bytes) and the leading bytes of the re-signed packet are
unchanged. -/
theorem C1_resign_preserves_body (data pw t : List Nat) (p : GrowlPacket)
    (hp : growlPacket data pw none = .ok p) (hv : p.valid = true) :
    p = ⟨data, true⟩ ∧
    growlPacket data pw (some t) =
      .ok ⟨data.take (data.length - 16) ++ md5 (data.take (data.length - 16) ++ t),
        true⟩ ∧
    (data.take (data.length - 16) ++
        md5 (data.take (data.length - 16) ++ t)).take (data.length - 16) =
      data.take (data.length - 16) := by
  refine ⟨valid_none_eq hp hv, valid_some_eq hp hv t, ?_⟩
  have hlen : (data.take (data.length - 16)).length = data.length - 16 := by
    rw [List.length_take]
    exact Nat.min_eq_left (Nat.sub_le _ _)
  exact List.take_left' hlen

/-- C1 witness at a concrete authentic NOTIFY packet. -/
theorem C1_witness :
    growlPacket ([1, 1] ++ md5 ([1, 1] ++ [112, 119])) [112, 119] none =
      .ok ⟨[1, 1] ++ md5 ([1, 1] ++ [112, 119]), true⟩ ∧
    growlPacket ([1, 1] ++ md5 ([1, 1] ++ [112, 119])) [112, 119] (some [97]) =
      .ok ⟨([1, 1] ++ md5 ([1, 1] ++ [112, 119])).take
            (([1, 1] ++ md5 ([1, 1] ++ [112, 119])).length - 16) ++
          md5 (([1, 1] ++ md5 ([1, 1] ++ [112, 119])).take
            (([1, 1] ++ md5 ([1, 1] ++ [112, 119])).length - 16) ++ [97]), true⟩ :=
  ⟨by decide,
   (C1_resign_preserves_body ([1, 1] ++ md5 ([1, 1] ++ [112, 119])) [112, 119] [97]
      ⟨[1, 1] ++ md5 ([1, 1] ++ [112, 119]), true⟩ (by decide) (by decide)).2.1⟩

/-- C2 counterexample: the round-trip property fails for a body whose byte
at offset 1 is neither 0 nor 1.  The datagram carries the correct checksum
for the secret, yet validation classifies it UNSUPPORTED and never sets the
flag. -/
theorem C2_counterexample :
    growlPacket ([3, 7] ++ md5 ([3, 7] ++ [112, 119])) [112, 119] none =
      .ok ⟨[3, 7] ++ md5 ([3, 7] ++ [112, 119]), false⟩ := by
  decide

/-- C2 (amended): for any body `b` whose byte at offset 1 is 0 or 1 and any
secret `s`, decoding `b ++ md5 (b ++ s)` and validating under `s` with no
target secret yields a valid packet with unchanged bytes. -/
theorem C2_roundtrip_amended (b s : List Nat) (tb : Nat)
    (hb : b[1]? = some tb) (ht : tb = 0 ∨ tb = 1) :
    growlPacket (b ++ md5 (b ++ s)) s none = .ok ⟨b ++ md5 (b ++ s), true⟩ := by
  have hlen1 : 1 < b.length := (List.getElem?_eq_some.mp hb).choose
  have hb2 : (b ++ md5 (b ++ s))[1]? = some tb := by
    rw [List.getElem?_append_left hlen1]; exact hb
  have hlen : (b ++ md5 (b ++ s)).length = b.length + 16 := by
    simp [List.length_append, md5_length]
  have htake : (b ++ md5 (b ++ s)).take ((b ++ md5 (b ++ s)).length - 16) = b := by
    rw [hlen, Nat.add_sub_cancel, List.take_left]
  have hdrop : (b ++ md5 (b ++ s)).drop ((b ++ md5 (b ++ s)).length - 16) =
      md5 (b ++ s) := by
    rw [hlen, Nat.add_sub_cancel, List.drop_left]
  rw [growlPacket_supported _ s none hb2 ht, htake, hdrop, if_pos rfl]

/-- C2 witness at a concrete REGISTER body. -/
theorem C2_witness :
    growlPacket ([2, 0] ++ md5 ([2, 0] ++ [113])) [113] none =
      .ok ⟨[2, 0] ++ md5 ([2, 0] ++ [113]), true⟩ :=
  C2_roundtrip_amended [2, 0] [113] 0 (by decide) (Or.inl rfl)

/-- C5 counterexample: decoding the empty datagram fails with IndexError
(`self.data[1]` on a byte string shorter than 2 bytes), so decode is not
total. -/
theorem C5_counterexample :
    growlPacket [] [112, 119] none = .error () := by
  decide

/-- C5 (amended): for every datagram long enough to contain offset 1,
classification reads exactly that byte (0 REGISTER, 1 NOTIFY, anything else
UNSUPPORTED) and packet construction returns a packet; for a datagram
shorter than 2 bytes, packet construction raises instead. -/
theorem C5_decode_amended (data pw : List Nat) (cp : Option (List Nat)) :
    (∀ b, data[1]? = some b →
      packetType data =
        .ok (if b = 0 then "REGISTER" else if b = 1 then "NOTIFY"
          else "UNSUPPORTED") ∧
      ∃ p, growlPacket data pw cp = .ok p) ∧
    (data[1]? = none → growlPacket data pw cp = .error ()) := by
  constructor
  · intro b hb
    refine ⟨by simp [packetType, hb], ?_⟩
    by_cases h0 : b = 0
    · rw [growlPacket_supported data pw cp hb (Or.inl h0)]
      split
      · cases cp <;> exact ⟨_, rfl⟩
      · exact ⟨_, rfl⟩
    · by_cases h1 : b = 1
      · rw [growlPacket_supported data pw cp hb (Or.inr h1)]
        split
        · cases cp <;> exact ⟨_, rfl⟩
        · exact ⟨_, rfl⟩
      · exact ⟨_, growlPacket_unsupported data pw cp hb h0 h1⟩
  · exact growlPacket_short data pw cp

/-- C5 witness: classification of a concrete unsupported byte and failure on
a concrete 1-byte datagram. -/
theorem C5_witness :
    packetType [7, 3] = .ok "UNSUPPORTED" ∧
    growlPacket [9] [112, 119] none = .error () :=
  ⟨by
    have h := ((C5_decode_amended [7, 3] [112, 119] none).1 3 (by decide)).1
    simpa using h,
   (C5_decode_amended [9] [112, 119] none).2 (by decide)⟩

/-- C7: a packet whose type byte at offset 1 is neither 0 nor 1 is
classified UNSUPPORTED and never validates, regardless of its trailing
16 bytes and of any supplied client password; its bytes are returned
unmodified. -/
theorem C7_unsupported_never_authentic (data pw : List Nat)
    (cp : Option (List Nat)) (b : Nat)
    (hb : data[1]? = some b) (h0 : b ≠ 0) (h1 : b ≠ 1) :
    growlPacket data pw cp = .ok ⟨data, false⟩ :=
  growlPacket_unsupported data pw cp hb h0 h1

/-- C7 witness: a packet with an unsupported type byte and a correct
checksum for the verifying secret still comes back invalid and untouched. -/
theorem C7_witness :
    md5 (([0, 9] ++ md5 ([0, 9] ++ [97])).take
        (([0, 9] ++ md5 ([0, 9] ++ [97])).length - 16) ++ [97]) =
      ([0, 9] ++ md5 ([0, 9] ++ [97])).drop
        (([0, 9] ++ md5 ([0, 9] ++ [97])).length - 16) ∧
    growlPacket ([0, 9] ++ md5 ([0, 9] ++ [97])) [97] (some [98]) =
      .ok ⟨[0, 9] ++ md5 ([0, 9] ++ [97]), false⟩ :=
  ⟨by decide,
   C7_unsupported_never_authentic ([0, 9] ++ md5 ([0, 9] ++ [97])) [97]
     (some [98]) 9 (by decide) (by decide) (by decide)⟩

/-- C8: a packet that validates under the verifying secret, revalidated with
no target secret, is returned with bytes identical to the input. -/
theorem C8_no_target_identity (data pw : List Nat) (p : GrowlPacket)
    (hp : growlPacket data pw none = .ok p) (hv : p.valid = true) :
    p.data = data ∧ growlPacket data pw none = .ok ⟨data, true⟩ := by
  have h := valid_none_eq hp hv
  exact ⟨by rw [h], by rw [hp, h]⟩

/-- C8 witness at a concrete authentic REGISTER packet. -/
theorem C8_witness :
    growlPacket ([0, 0] ++ md5 ([0, 0] ++ [98])) [98] none =
      .ok ⟨[0, 0] ++ md5 ([0, 0] ++ [98]), true⟩ :=
  (C8_no_target_identity ([0, 0] ++ md5 ([0, 0] ++ [98])) [98]
    ⟨[0, 0] ++ md5 ([0, 0] ++ [98]), true⟩ (by decide) (by decide)).2

/-- A packet that fails validation is returned with its bytes untouched and
the flag clear, whatever client password is supplied. -/
theorem invalid_elim {data pw : List Nat} {p : GrowlPacket}
    (hp : growlPacket data pw none = .ok p) (hv : p.valid = false) :
    ∀ cp, growlPacket data pw cp = .ok ⟨data, false⟩ := by
  intro cp
  cases hb : data[1]? with
  | none => rw [growlPacket_short data pw none hb] at hp; cases hp
  | some b =>
    by_cases hs : b = 0 ∨ b = 1
    · by_cases hck : md5 (data.take (data.length - 16) ++ pw) =
          data.drop (data.length - 16)
      · rw [growlPacket_supported data pw none hb hs, if_pos hck] at hp
        injection hp with h
        rw [← h] at hv
        simp at hv
      · rw [growlPacket_supported data pw cp hb hs, if_neg hck]
    · obtain ⟨h0, h1⟩ := not_or.mp hs
      exact growlPacket_unsupported data pw cp hb h0 h1

/-- C4 counterexample: `info` on the 2-byte REGISTER datagram `[0, 0]` fails
(struct.error while unpacking the empty slice `data[2:4]`), so `info` is not
total on malformed input. -/
theorem C4_counterexample : info [0, 0] = .error () := by
  decide

/-- C4 (amended): on insufficient length `info` raises instead of degrading
gracefully: every datagram shorter than 4 bytes produces an exception
(IndexError from the type byte, or struct.error from a short length
field). -/
theorem C4_info_fails_short (data : List Nat) (h : data.length < 4) :
    info data = .error () := by
  match data with
  | [] => rfl
  | [a] => rfl
  | [a, b] =>
    by_cases h0 : b = 0
    · subst h0; rfl
    · by_cases h1 : b = 1
      · subst h1; rfl
      · simp [info, packetType, pySlice, unpackH, h0, h1]
  | [a, b, c] =>
    by_cases h0 : b = 0
    · subst h0; rfl
    · by_cases h1 : b = 1
      · subst h1; rfl
      · simp [info, packetType, pySlice, unpackH, h0, h1]
  | _ :: _ :: _ :: _ :: _ => simp at h; omega

/-- C4 witness at a concrete 1-byte datagram. -/
theorem C4_witness : [9].length < 4 ∧ info [9] = .error () :=
  ⟨by decide, C4_info_fails_short [9] (by decide)⟩

/-- C6: an inbound datagram that decodes but fails the checksum under the
relay password keeps its bytes unchanged (also when a target secret is
supplied), the relay outcome is DISCARDED, and no UDP send is issued to any
destination. -/
theorem C6_inauthentic_discarded (data pw : List Nat)
    (clients : List (String × List Nat)) (sendFails : Nat → Bool)
    (p : GrowlPacket) (hp : growlPacket data pw none = .ok p)
    (hv : p.valid = false) :
    p.data = data ∧
    handle data pw clients sendFails = ([], .ok "DISCARDED") ∧
    (∀ t q, growlPacket data pw (some t) = .ok q →
      q.data = data ∧ q.valid = false) := by
  have hall := invalid_elim hp hv
  refine ⟨?_, ?_, ?_⟩
  · have h := hall none
    rw [hp] at h
    injection h with h
    rw [h]
  · unfold handle
    rw [hp]
    simp [hv]
  · intro t q hq
    have h := hall (some t)
    rw [hq] at h
    injection h with h
    rw [h]
    exact ⟨rfl, rfl⟩

/-- C6 witness: a short NOTIFY datagram with a checksum that cannot match is
discarded with zero sends. -/
theorem C6_witness :
    handle [1, 1, 0] [112, 119] [("h", [97])] (fun _ => false) =
      ([], .ok "DISCARDED") :=
  (C6_inauthentic_discarded [1, 1, 0] [112, 119] [("h", [97])] (fun _ => false)
    ⟨[1, 1, 0], false⟩ (by decide) (by decide)).2.1

/-- The fan-out loop with no send failures delivers one correctly re-signed
datagram to every destination in configuration order. -/
theorem fanout_ok (data pw : List Nat) (sendFails : Nat → Bool)
    (hre : ∀ c, growlPacket data pw (some c) = .ok ⟨resign data c, true⟩)
    (hns : ∀ i, sendFails i = false) :
    ∀ (clients : List (String × List Nat)) (start : Nat),
      fanout data pw clients sendFails start =
        (clients.map (fun c => (c.1, resign data c.2)), .ok ()) := by
  intro clients
  induction clients with
  | nil => intro start; rfl
  | cons hd rest ih =>
    intro start
    obtain ⟨host, cpw⟩ := hd
    simp [fanout, hre cpw, hns start, ih (start + 1)]

/-- The fan-out loop with its first send failure at position `j` (relative
to `start`) delivers re-signed datagrams to exactly the destinations before
position `j`, then the exception aborts the loop. -/
theorem fanout_abort (data pw : List Nat) (sendFails : Nat → Bool)
    (hre : ∀ c, growlPacket data pw (some c) = .ok ⟨resign data c, true⟩) :
    ∀ (clients : List (String × List Nat)) (start j : Nat),
      j < clients.length →
      sendFails (start + j) = true →
      (∀ i, i < j → sendFails (start + i) = false) →
      fanout data pw clients sendFails start =
        ((clients.take j).map (fun c => (c.1, resign data c.2)), .error ()) := by
  intro clients
  induction clients with
  | nil => intro start j hj _ _; cases hj
  | cons hd rest ih =>
    intro start j hj hfail hok
    obtain ⟨host, cpw⟩ := hd
    match j with
    | 0 =>
      have hf : sendFails start = true := by simpa using hfail
      simp [fanout, hre cpw, hf]
    | j' + 1 =>
      have hs : sendFails start = false := by simpa using hok 0 (Nat.succ_pos j')
      have hj' : j' < rest.length := by simpa using hj
      have hfail' : sendFails (start + 1 + j') = true := by
        have harr : start + 1 + j' = start + (j' + 1) := by omega
        rw [harr]; exact hfail
      have hok' : ∀ i, i < j' → sendFails (start + 1 + i) = false := by
        intro i hi
        have harr : start + 1 + i = start + (i + 1) := by omega
        rw [harr]; exact hok (i + 1) (by omega)
      simp [fanout, hre cpw, hs, ih (start + 1) j' hj' hfail' hok']

/-- C3 counterexample: three destinations, authentic packet, and a send
failure at the second destination.  Only the first destination receives a
datagram; the third is never attempted and the handler aborts with the
propagated exception, contradicting the claimed fan-out isolation. -/
theorem C3_counterexample :
    handle ([1, 1] ++ md5 ([1, 1] ++ [112, 119])) [112, 119]
      [("h1", [97]), ("h2", [98]), ("h3", [99])] (fun i => i = 1) =
      ([("h1", [1, 1] ++ md5 ([1, 1] ++ [97]))], .error ()) := by
  decide

/-- C3 (amended): the fan-out loop has no per-destination exception
isolation: when the send to the destination at position `j` raises and all
earlier sends succeed, exactly the destinations before position `j` receive
their (correctly re-signed) datagrams, the destinations from position `j`
on receive nothing, and the handler aborts with the exception. -/
theorem C3_send_failure_aborts_fanout (data pw : List Nat)
    (clients : List (String × List Nat)) (sendFails : Nat → Bool) (j : Nat)
    (p : GrowlPacket) (hp : growlPacket data pw none = .ok p)
    (hv : p.valid = true) (hj : j < clients.length)
    (hfail : sendFails j = true) (hok : ∀ i, i < j → sendFails i = false) :
    handle data pw clients sendFails =
      ((clients.take j).map (fun c => (c.1, resign data c.2)), .error ()) := by
  have hpe := valid_none_eq hp hv
  have habort := fanout_abort data pw sendFails (valid_some_eq hp hv) clients 0 j
    hj (by simpa using hfail) (fun i hi => by simpa using hok i hi)
  unfold handle
  rw [hp, hpe]
  simp [habort, Except.map]

/-- C3 witness: the amended statement applied to the concrete 3-destination
scenario with the second send failing. -/
theorem C3_witness :
    handle ([1, 1] ++ md5 ([1, 1] ++ [112, 119])) [112, 119]
      [("h1", [97]), ("h2", [98]), ("h3", [99])] (fun i => i = 1) =
      (([("h1", [97]), ("h2", [98]), ("h3", [99])].take 1).map
        (fun c => (c.1, resign ([1, 1] ++ md5 ([1, 1] ++ [112, 119])) c.2)),
       .error ()) :=
  C3_send_failure_aborts_fanout ([1, 1] ++ md5 ([1, 1] ++ [112, 119])) [112, 119]
    [("h1", [97]), ("h2", [98]), ("h3", [99])] (fun i => i = 1) 1
    ⟨[1, 1] ++ md5 ([1, 1] ++ [112, 119]), true⟩ (by decide) (by decide)
    (by decide) (by decide)
    (fun i hi => by
      have h0 : i = 0 := by omega
      subst h0
      rfl)

/-- A 16-byte datagram equal to `md5 pw` (with a supported type byte)
validates under `pw`: its body slice `data[:-16]` is empty and the expected
checksum is `md5 pw` itself. -/
theorem md5_packet_valid (pw : List Nat) {b : Nat}
    (hb : (md5 pw)[1]? = some b) (hsupp : b = 0 ∨ b = 1) :
    growlPacket (md5 pw) pw none = .ok ⟨md5 pw, true⟩ := by
  have h0 : (md5 pw).length - 16 = 0 := by rw [md5_length]
  rw [growlPacket_supported (md5 pw) pw none hb hsupp, h0, List.take_zero,
    List.drop_zero, if_pos (by simp)]

/-- C10: authenticity compares `md5(data[:-16] ++ pw)` with `data[-16:]`
also on short datagrams.  A datagram shorter than 16 bytes never validates
(the 16-byte digest cannot equal a shorter suffix); a 16-byte datagram with
a supported type byte validates exactly when its contents equal `md5 pw`
(its body is empty), and such a datagram is relayed to every destination,
re-signed to the bare digest `md5` of each destination secret. -/
theorem C10_short_datagram_authenticity (pw : List Nat) :
    (∀ (data : List Nat) (cp : Option (List Nat)) (p : GrowlPacket),
      data.length < 16 → growlPacket data pw cp = .ok p → p.valid = false) ∧
    (∀ (data : List Nat) (b : Nat), data.length = 16 → data[1]? = some b →
      (b = 0 ∨ b = 1) →
      ((growlPacket data pw none = .ok ⟨data, true⟩) ↔ data = md5 pw)) ∧
    (∀ (b : Nat) (clients : List (String × List Nat)),
      (md5 pw)[1]? = some b → (b = 0 ∨ b = 1) →
      handle (md5 pw) pw clients (fun _ => false) =
        (clients.map (fun c => (c.1, md5 c.2)), .ok "REPEATED")) := by
  refine ⟨?_, ?_, ?_⟩
  · intro data cp p hlen hp
    cases hval : p.valid
    · rfl
    · obtain ⟨_, hck⟩ := valid_elim hp hval
      have h0 : data.length - 16 = 0 := by omega
      rw [h0, List.drop_zero] at hck
      have hl := md5_length (data.take 0 ++ pw)
      rw [hck] at hl
      omega
  · intro data b hlen hb hsupp
    constructor
    · intro h
      obtain ⟨_, hck⟩ := valid_elim h rfl
      have h0 : data.length - 16 = 0 := by omega
      rw [h0, List.take_zero, List.drop_zero] at hck
      simpa using hck.symm
    · intro h
      have h0 : data.length - 16 = 0 := by omega
      rw [growlPacket_supported data pw none hb hsupp, h0, List.take_zero,
        List.drop_zero, if_pos (by simpa using h.symm)]
  · intro b clients hb hsupp
    have hvalid := md5_packet_valid pw hb hsupp
    have hres : clients.map (fun c => (c.1, resign (md5 pw) c.2)) =
        clients.map (fun c => (c.1, md5 c.2)) := by
      apply List.map_congr_left
      intro c _
      simp [resign, md5_length]
    have hfan := fanout_ok (md5 pw) pw (fun _ => false)
      (valid_some_eq hvalid rfl) (fun _ => rfl) clients 0
    unfold handle
    rw [hvalid]
    simp only [hfan, hres]
    rfl

/-- C10 witness: with the secret "lf" (ASCII `[108, 102]`), whose digest has
byte 1 at offset 1 (a NOTIFY type byte), the 16-byte datagram `md5 pw` is
authentic with empty body and is relayed, and a concrete 3-byte datagram
never validates. -/
theorem C10_witness :
    GrowlPacket.valid ⟨[1, 1, 0], false⟩ = false ∧
    ((growlPacket (md5 [108, 102]) [108, 102] none =
        .ok ⟨md5 [108, 102], true⟩) ↔ md5 [108, 102] = md5 [108, 102]) ∧
    handle (md5 [108, 102]) [108, 102] [("h", [97])] (fun _ => false) =
      ([("h", md5 [97])], .ok "REPEATED") :=
  ⟨(C10_short_datagram_authenticity [108, 102]).1 [1, 1, 0] none
      ⟨[1, 1, 0], false⟩ (by decide) (by decide),
   (C10_short_datagram_authenticity [108, 102]).2.1 (md5 [108, 102]) 1
      (by decide) (by decide) (Or.inr rfl),
   (C10_short_datagram_authenticity [108, 102]).2.2 1 [("h", [97])]
      (by decide) (Or.inr rfl)⟩

/-- The provable half of tamper detection (claim C9): replacing the trailing
16 checksum bytes of an authentic datagram by any other 16 bytes (in
particular, by flipping any single bit there) makes validation fail.  The
other half of C9 — a bit flip inside the body — would require that the
embedded MD5 admits no single-bit-difference collisions, which is neither
provable nor refutable here. -/
theorem trailing_tamper_invalid (b s c : List Nat) (tb : Nat)
    (hb : b[1]? = some tb) (ht : tb = 0 ∨ tb = 1)
    (hc : c.length = 16) (hne : c ≠ md5 (b ++ s)) :
    growlPacket (b ++ c) s none = .ok ⟨b ++ c, false⟩ := by
  have hlen1 : 1 < b.length := (List.getElem?_eq_some.mp hb).choose
  have hb2 : (b ++ c)[1]? = some tb := by
    rw [List.getElem?_append_left hlen1]; exact hb
  have hlen : (b ++ c).length = b.length + 16 := by simp [hc]
  have htake : (b ++ c).take ((b ++ c).length - 16) = b := by
    rw [hlen, Nat.add_sub_cancel, List.take_left]
  have hdrop : (b ++ c).drop ((b ++ c).length - 16) = c := by
    rw [hlen, Nat.add_sub_cancel, List.drop_left]
  rw [growlPacket_supported _ s none hb2 ht, htake, hdrop, if_neg]
  intro h
  exact hne h.symm

end Growlpeat
